import Mathlib

/-!
Verification of the timed reservation scheduling and retry engine of
Starsbon/bws_ticket against its natural-language specification.

The repository has two entry points:
* `src/cli.py` — class `TimeUtils` (clock correction via NTP), class
  `ReservationBot` (`_wait_for_reservation_time`, `_start_reservation_loop`);
* `src/gui.py` — class `ReservationPool` (`add_activity`, `remove_activity`,
  `start_concurrent_reservation`, `_reserve_activity`, `stop_reservation`)
  and class `ReservationData` (`_build_activity_mapping`).

The embedding below is a shallow one.  Wall-clock readings, NTP query results
and transport response codes are supplied to each loop as an explicit trace
(one entry per loop iteration); a loop that runs out of trace returns a
`pending` marker.  Times are exact rationals (the source uses Python floats),
response codes are integers, and the `int(...)` truncation that the source
applies to clock readings is modelled by `py_int`.  Sleeping, logging and the
actual HTTP calls are side effects that do not influence the control flow
being verified; the per-code sleep durations are recorded by `cli_sleep_for`
and `gui_retry_delay` for reference.
-/

namespace BwsTicket

/-- Python `int(...)` applied to a real number truncates toward zero. -/
def py_int (q : ℚ) : Int := if 0 ≤ q then ⌊q⌋ else ⌈q⌉

/-! ## TimeUtils (src/cli.py, lines 103-141)

Class-level state `_use_ntp` / `_ntp_offset`.  A reference (NTP) query either
returns the server time or fails; a failed query is `none`. -/

structure TimeState where
  use_ntp : Bool
  ntp_offset : ℚ
  deriving DecidableEq, Repr

namespace TimeUtils

/-- `TimeUtils.get_current_time` (cli.py 131-136): corrected time when NTP
mode is on, raw local time otherwise. -/
def get_current_time (st : TimeState) (local_now : ℚ) : ℚ :=
  if st.use_ntp then local_now + st.ntp_offset else local_now

/-- `TimeUtils._sync_ntp_time` (cli.py 115-129): on success the offset is
overwritten with `ntp_time - local_time`; on failure (`none`) the method
catches the exception, sets `_use_ntp = False` and `_ntp_offset = 0`
("将使用本地时间"). -/
def sync_ntp_time (st : TimeState) (query : Option ℚ) (local_time : ℚ) : TimeState :=
  match query with
  | some ntp_time => { st with ntp_offset := ntp_time - local_time }
  | none => { use_ntp := false, ntp_offset := 0 }

/-- `TimeUtils.set_ntp_mode` (cli.py 108-113): stores the flag and, when
enabling, runs `_sync_ntp_time`. -/
def set_ntp_mode (st : TimeState) (use_ntp : Bool) (query : Option ℚ)
    (local_time : ℚ) : TimeState :=
  if use_ntp then sync_ntp_time { st with use_ntp := true } query local_time
  else { st with use_ntp := false }

end TimeUtils

/-- The automatic NTP sync performed inside
`ReservationBot._wait_for_reservation_time` (cli.py 826-860).  On a failed
query the `except` branch only logs and leaves the state untouched.  On
success, when NTP mode is off the correction is enabled exactly when the
measured discrepancy exceeds 0.7 s; when NTP mode is already on the offset is
overwritten. -/
def auto_ntp_sync (st : TimeState) (query : Option ℚ) (local_time_before : ℚ) :
    TimeState :=
  match query with
  | none => st
  | some ntp_time =>
      let new_ntp_offset := ntp_time - local_time_before
      if st.use_ntp then { st with ntp_offset := new_ntp_offset }
      else if 7/10 < |new_ntp_offset| then
        { use_ntp := true, ntp_offset := new_ntp_offset }
      else st

/-! ## ReservationBot._wait_for_reservation_time (src/cli.py, lines 809-898)

Each iteration reads `current_time = int(TimeUtils.get_current_time())`,
performs the one-time automatic NTP sync once `current_time` is within 300 s
of `reserve_time`, then compares `current_time` against
`target_time = reserve_time + delay_ms / 1000` and either sleeps 0.1 s and
repeats or falls through to `_start_reservation_loop`.  An iteration is
driven by one `CliWaitInput`: the raw local clock and the NTP query outcome
that a sync attempt in that iteration would observe. -/

structure CliWaitInput where
  localTime : ℚ
  ntpQuery : Option ℚ
  deriving DecidableEq, Repr

inductive CliWaitResult where
  /-- the loop fell through to the firing loop; `reading` is the
  `current_time` value that ended the wait, `ts` the time state then. -/
  | fired (reading : Int) (ts : TimeState)
  /-- the supplied trace ended while the loop was still waiting. -/
  | pending
  deriving DecidableEq, Repr

def wait_for_reservation_time (reserve_time delay_ms : Int) :
    Bool → TimeState → List CliWaitInput → CliWaitResult
  | _, _, [] => .pending
  | auto_sync_done, ts, inp :: rest =>
      let current_time := py_int (TimeUtils.get_current_time ts inp.localTime)
      let sync_now := !auto_sync_done && decide (reserve_time - 300 ≤ current_time)
      let ts' := if sync_now then auto_ntp_sync ts inp.ntpQuery inp.localTime else ts
      let done' := auto_sync_done || sync_now
      if (current_time : ℚ) < (reserve_time : ℚ) + (delay_ms : ℚ) / 1000 then
        wait_for_reservation_time reserve_time delay_ms done' ts' rest
      else
        .fired current_time ts'

/-! ## ReservationBot._start_reservation_loop (src/cli.py, lines 901-948)

The loop issues one transport call per iteration and inspects the response
code: `0` (success), `75574` (sold out) and `76674` (quota exhausted) break
out of the loop; codes `75637`, `-702`, `-1`, `412`, `429`, `76650` and any
unrecognized code only log and/or sleep and continue.  The per-code sleeps
(412 → 180 s, 429 → 0.5 s, 76650 → 0.1 s, plus the configured loop delay
after every iteration) are recorded by `cli_sleep_for`.  There is no retry
counter in this loop. -/

inductive CliFireResult where
  | success
  | soldOut
  | quotaFull
  /-- the supplied trace of response codes ended with the loop still going. -/
  | pending
  deriving DecidableEq, Repr

/-- Extra sleep selected by the response-code branch of
`_start_reservation_loop` (before the configured loop delay). -/
def cli_sleep_for (code : Int) : ℚ :=
  if code = 412 then 180
  else if code = 429 then 1/2
  else if code = 76650 then 1/10
  else 0

/-- `_start_reservation_loop` over a trace of response codes; returns the
terminal result together with the number of transport calls issued. -/
def start_reservation_loop : List Int → CliFireResult × Nat
  | [] => (.pending, 0)
  | code :: rest =>
      if code = 0 then (.success, 1)
      else if code = 75574 then (.soldOut, 1)
      else if code = 76674 then (.quotaFull, 1)
      else
        let r := start_reservation_loop rest
        (r.1, r.2 + 1)

/-! ## ReservationPool (src/gui.py, lines 262-418)

Pool state: the selected activity set, the `is_running` flag, the per-activity
retry counters and, once a run has started, the list of activities handed to
the worker threads (the `futures` list built inside
`start_concurrent_reservation`). -/

structure PoolState where
  selected : Finset Int
  is_running : Bool
  retry_counts : Int → Option Nat
  active_workers : List Int

/-- Terminal values returned by `ReservationPool._reserve_activity`. -/
inductive GuiOutcome where
  /-- "无法找到对应的票号" — no ticket for the activity. -/
  | noTicket
  /-- "预约被取消" — stop observed during the wait loop. -/
  | cancelledWait
  /-- the server result with `code == 0`, returned as-is. -/
  | success
  /-- "达到最大重试次数" — the retry ceiling was reached. -/
  | maxRetriesReached
  /-- "预约被停止" — the firing loop observed `is_running == False`. -/
  | stopped
  /-- the supplied trace ended with the worker still going. -/
  | pending
  deriving DecidableEq, Repr

namespace ReservationPool

/-- `ReservationPool.add_activity` (gui.py 275-283): succeeds exactly when the
id is a key of `reservation_data.activity_mapping`; then inserts it into the
selected set and resets its retry counter to 0.  (The pool-state save to disk
is a side effect.) -/
def add_activity (activity_mapping : Int → Option (String × Int × Int))
    (st : PoolState) (activity_id : Int) : Bool × PoolState :=
  if (activity_mapping activity_id).isSome then
    (true, { st with
              selected := insert activity_id st.selected,
              retry_counts := Function.update st.retry_counts activity_id (some 0) })
  else (false, st)

/-- `ReservationPool.remove_activity` (gui.py 285-290): discards the id from
the selected set and pops its retry counter. -/
def remove_activity (st : PoolState) (activity_id : Int) : PoolState :=
  { st with
      selected := st.selected.erase activity_id,
      retry_counts := Function.update st.retry_counts activity_id none }

/-- `ReservationPool.start_concurrent_reservation` (gui.py 303-332): a no-op
when already running or when the selected set is empty; otherwise sets the
running flag and submits one worker per selected activity.  The returned list
is the set of activities handed to workers (Python iterates the set in an
unspecified order; the sorted enumeration is a determinization of it). -/
def start_concurrent_reservation (st : PoolState) : PoolState × List Int :=
  if st.is_running ∨ st.selected = ∅ then (st, [])
  else
    ({ st with is_running := true, active_workers := st.selected.sort (· ≤ ·) },
     st.selected.sort (· ≤ ·))

/-- `ReservationPool.stop_reservation` (gui.py 379-384): clears the running
flag.  (`executor.shutdown(wait=False)` does not interrupt running workers.) -/
def stop_reservation (st : PoolState) : PoolState :=
  { st with is_running := false }

/-! ### The worker: `ReservationPool._reserve_activity` (gui.py 334-377)

The wait loop runs while `int(time.time()) <= reserve_time`, checking
`is_running` each 0.1 s quantum.  The firing loop runs while `is_running`,
issuing one transport call per iteration; each iteration is driven by the
flag reading at the top of the loop paired with the response code the
transport call returns. -/

structure GuiWaitInput where
  /-- the `int(time.time())` reading of this iteration. -/
  clock : Int
  /-- the `is_running` reading of this iteration. -/
  running : Bool
  deriving DecidableEq, Repr

inductive GuiWaitResult where
  | cancelled
  /-- the wait ended; `reading` is the clock value that ended it. -/
  | proceed (reading : Int)
  | pending
  deriving DecidableEq, Repr

def reserve_wait_loop (reserve_time : Int) : List GuiWaitInput → GuiWaitResult
  | [] => .pending
  | inp :: rest =>
      if inp.clock ≤ reserve_time then
        if inp.running then reserve_wait_loop reserve_time rest else .cancelled
      else .proceed inp.clock

/-- Sleep chosen by the error-code branch of the firing loop, from the
`retry_intervals` configuration (defaults 1.0 / 0.5 / 0.25 s). -/
def gui_retry_delay (not_open rate_limit normal : ℚ) (code : Int) : ℚ :=
  if code = 75637 then not_open
  else if code = 702 then rate_limit
  else normal

structure FireOut where
  result : GuiOutcome
  /-- transport calls issued. -/
  attempts : Nat
  /-- intermediate "等待预约开放中..." status callbacks emitted (code 75637). -/
  notices : Nat
  deriving DecidableEq, Repr

/-- The firing loop of `_reserve_activity` (gui.py 351-377).  `cnt` is the
activity's current retry counter (`retry_counts.get(activity_id, 0)`). -/
def reserve_fire_loop (max_retries : Nat) : Nat → List (Bool × Int) → FireOut
  | _, [] => ⟨.pending, 0, 0⟩
  | cnt, (running, code) :: rest =>
      if running then
        if code = 0 then ⟨.success, 1, 0⟩
        else if max_retries ≤ cnt + 1 then ⟨.maxRetriesReached, 1, 0⟩
        else
          ⟨(reserve_fire_loop max_retries (cnt + 1) rest).result,
           (reserve_fire_loop max_retries (cnt + 1) rest).attempts + 1,
           (reserve_fire_loop max_retries (cnt + 1) rest).notices +
             if code = 75637 then 1 else 0⟩
      else ⟨.stopped, 0, 0⟩

/-- `_reserve_activity` (gui.py 334-377): ticket lookup, optional wait phase,
then the firing loop.  Returns the terminal outcome and the number of
transport calls issued. -/
def reserve_activity (max_retries : Nat) (cnt0 : Nat) (ticket : Option String)
    (wait_for_time : Bool) (reserve_time : Int)
    (wait_trace : List GuiWaitInput) (fire_trace : List (Bool × Int)) :
    GuiOutcome × Nat :=
  match ticket with
  | none => (.noTicket, 0)
  | some _ =>
      if wait_for_time then
        match reserve_wait_loop reserve_time wait_trace with
        | .cancelled => (.cancelledWait, 0)
        | .pending => (.pending, 0)
        | .proceed _ =>
            let o := reserve_fire_loop max_retries cnt0 fire_trace
            (o.result, o.attempts)
      else
        let o := reserve_fire_loop max_retries cnt0 fire_trace
        (o.result, o.attempts)

/-! ### The monitor thread inside `start_concurrent_reservation`
(gui.py 318-332): for every `(activity_id, future)` pair it waits for the
future and invokes the status callback exactly once with the worker's result,
or with an error dict if the worker raised. -/

inductive CallbackMsg where
  | outcome (r : GuiOutcome)
  | errorMsg (e : String)
  deriving DecidableEq, Repr

def monitor_tasks (futures : List (Int × Except String GuiOutcome)) :
    List (Int × CallbackMsg) :=
  futures.map fun f =>
    (f.1, match f.2 with
          | .ok r => .outcome r
          | .error e => .errorMsg e)

end ReservationPool

/-! ## ReservationData._build_activity_mapping (src/gui.py, lines 226-250)

The activity mapping is a dict built by iterating the ticket days and, for
each day, the day's reserve list, assigning
`activity_map[reserve_id] = (title, act_begin_time, reserve_begin_time)`;
later assignments overwrite earlier ones. -/

structure Activity where
  reserve_id : Int
  act_title : String
  act_begin_time : Int
  reserve_begin_time : Int

structure ReservationInfo where
  ticket_days : List String
  reserve_list : String → List Activity

/-- One `activity_map[activity_id] = (title, start_time, reserve_time)`
assignment of the inner loop (gui.py 244-249). -/
def record_activity (m : Int → Option (String × Int × Int)) (act : Activity) :
    Int → Option (String × Int × Int) :=
  Function.update m act.reserve_id
    (some (act.act_title.replace "\n" "",
           act.act_begin_time, act.reserve_begin_time))

/-- One iteration of the outer `for day in self.ticket_days` loop. -/
def record_day (reserve_list : String → List Activity)
    (m : Int → Option (String × Int × Int)) (day : String) :
    Int → Option (String × Int × Int) :=
  (reserve_list day).foldl record_activity m

def build_activity_mapping (info : ReservationInfo) :
    Int → Option (String × Int × Int) :=
  info.ticket_days.foldl (record_day info.reserve_list) (fun _ => none)

/-! ## Trace truncation helpers

`fire_stop_cut` keeps a firing trace up to and including the first iteration
whose `is_running` reading is `false`; `wait_stop_cut` keeps a wait trace up
to and including the first iteration that ends the wait loop (clock past the
reserve time, or a cleared flag).  They are used to state that everything
after the first observation of a cleared flag is irrelevant to the worker. -/

def fire_stop_cut : List (Bool × Int) → List (Bool × Int)
  | [] => []
  | (running, code) :: rest =>
      if running then (running, code) :: fire_stop_cut rest
      else [(running, code)]

def wait_stop_cut (reserve_time : Int) :
    List ReservationPool.GuiWaitInput → List ReservationPool.GuiWaitInput
  | [] => []
  | inp :: rest =>
      if inp.clock ≤ reserve_time ∧ inp.running then
        inp :: wait_stop_cut reserve_time rest
      else [inp]

/-! ## Concrete fixtures used by witness theorems -/

def sample_info : ReservationInfo where
  ticket_days := ["20250711"]
  reserve_list := fun _ => [⟨5, "act", 1752000000, 1751000000⟩]

def sample_pool : PoolState where
  selected := ∅
  is_running := false
  retry_counts := fun _ => none
  active_workers := []

def sample_running_pool : PoolState where
  selected := {5}
  is_running := true
  retry_counts := fun _ => none
  active_workers := [5]

/-! # Theorems -/

/-- The CLI wait loop only falls through to the firing loop at a clock
reading that is at or past `reserve_time + delay_ms / 1000`. -/
lemma wait_fired_not_early (reserve_time delay_ms : Int) :
    ∀ (inputs : List CliWaitInput) (auto_sync_done : Bool) (ts ts' : TimeState)
      (t : Int),
      wait_for_reservation_time reserve_time delay_ms auto_sync_done ts inputs =
        .fired t ts' →
      (reserve_time : ℚ) + (delay_ms : ℚ) / 1000 ≤ (t : ℚ) := by
  intro inputs
  induction inputs with
  | nil =>
      intro _ _ _ _ h
      simp [wait_for_reservation_time] at h
  | cons inp rest ih =>
      intro auto_sync_done ts ts' t h
      simp only [wait_for_reservation_time] at h
      split at h
      · exact ih _ _ _ _ h
      · next hlt =>
          cases h
          exact le_of_not_lt hlt

/-- The GUI wait loop only falls through to the firing loop at a clock
reading strictly past `reserve_time`. -/
lemma gui_wait_proceed_after (reserve_time : Int) :
    ∀ (trace : List ReservationPool.GuiWaitInput) (t : Int),
      ReservationPool.reserve_wait_loop reserve_time trace = .proceed t →
      reserve_time < t := by
  intro trace
  induction trace with
  | nil =>
      intro t h
      simp [ReservationPool.reserve_wait_loop] at h
  | cons inp rest ih =>
      intro t h
      simp only [ReservationPool.reserve_wait_loop] at h
      split at h
      · split at h
        · exact ih _ h
        · simp at h
      · next hgt =>
          cases h
          omega

/-- C1: a task started in wait-for-fire-time mode never transitions from the
wait loop to the firing loop while the clock reading used by the scheduler is
strictly less than `targetFireTime + fireOffset`.  For the CLI scheduler
(`ReservationBot._wait_for_reservation_time`) this holds for every
`delay_ms`, positive, negative or zero; the GUI scheduler (the wait phase of
`ReservationPool._reserve_activity`) has its fire offset fixed at zero and
its exit reading strictly exceeds the target. -/
theorem c1_never_fires_before_target :
    (∀ (reserve_time delay_ms : Int) (auto_sync_done : Bool) (ts ts' : TimeState)
       (inputs : List CliWaitInput) (t : Int),
       wait_for_reservation_time reserve_time delay_ms auto_sync_done ts inputs =
         .fired t ts' →
       (reserve_time : ℚ) + (delay_ms : ℚ) / 1000 ≤ (t : ℚ))
    ∧ (∀ (reserve_time : Int) (trace : List ReservationPool.GuiWaitInput) (t : Int),
       ReservationPool.reserve_wait_loop reserve_time trace = .proceed t →
       reserve_time < t) :=
  ⟨fun r d _ _ _ inputs t h => wait_fired_not_early r d inputs _ _ _ t h,
   fun r trace t h => gui_wait_proceed_after r trace t h⟩

/-- Witness for C1: a concrete scheduled run with a negative 500 ms offset
whose wait loop fires at reading 100, and a concrete GUI wait that proceeds
at reading 101. -/
theorem c1_witness :
    ((100 : Int) : ℚ) + ((-500 : Int) : ℚ) / 1000 ≤ ((100 : Int) : ℚ)
    ∧ (100 : Int) < 101 :=
  ⟨c1_never_fires_before_target.1 100 (-500) false ⟨false, 0⟩ ⟨false, 0⟩
     [⟨99, none⟩, ⟨100, none⟩] 100 (by
       norm_num [wait_for_reservation_time, py_int, TimeUtils.get_current_time,
         auto_ntp_sync]),
   c1_never_fires_before_target.2 100 [⟨100, true⟩, ⟨101, true⟩] 101 (by decide)⟩

/-- On a trace of `n` non-terminal responses followed by a success, the CLI
firing loop issues `n + 1` transport calls and ends with success. -/
lemma start_reservation_loop_replicate (n : Nat) :
    start_reservation_loop (List.replicate n 75637 ++ [0]) =
      (CliFireResult.success, n + 1) := by
  induction n with
  | zero => rfl
  | succ n ih =>
      rw [List.replicate_succ, List.cons_append]
      simp only [start_reservation_loop, ih]
      norm_num

/-- C2 counterexample: the CLI firing loop
(`ReservationBot._start_reservation_loop`) maintains no retry counter at
all.  With the configuration's default ceiling of 1000, a task fed 1000
"not open" (75637) responses followed by a success issues 1001 transport
calls and terminates with success — the 1001st call happens although the
retry count has reached the ceiling, and no Fatal "retry ceiling exceeded"
outcome is ever produced. -/
theorem c2_counterexample :
    start_reservation_loop (List.replicate 1000 75637 ++ [0]) =
      (CliFireResult.success, 1001)
    ∧ ¬((1001 : Nat) ≤ 1000) :=
  ⟨start_reservation_loop_replicate 1000, by norm_num⟩

/-- In the pool firing loop the number of transport calls never exceeds
`max_retries - cnt`. -/
lemma reserve_fire_loop_attempts_le (max_retries : Nat) :
    ∀ (trace : List (Bool × Int)) (cnt : Nat), cnt < max_retries →
      (ReservationPool.reserve_fire_loop max_retries cnt trace).attempts ≤
        max_retries - cnt := by
  intro trace
  induction trace with
  | nil => intro cnt h; simp [ReservationPool.reserve_fire_loop]
  | cons step rest ih =>
      intro cnt h
      obtain ⟨running, code⟩ := step
      by_cases hr : running
      · by_cases hc : code = 0
        · simp [ReservationPool.reserve_fire_loop, hr, hc]
          omega
        · by_cases hm : max_retries ≤ cnt + 1
          · simp [ReservationPool.reserve_fire_loop, hr, hc, hm]
            omega
          · have := ih (cnt + 1) (by omega)
            simp [ReservationPool.reserve_fire_loop, hr, hc, hm]
            omega
      · simp [ReservationPool.reserve_fire_loop, hr]

/-- On an all-failure trace long enough to exhaust the ceiling, the pool
firing loop ends with `maxRetriesReached` after exactly `max_retries - cnt`
transport calls, whatever the individual response codes are. -/
lemma reserve_fire_loop_all_fail (max_retries : Nat) :
    ∀ (codes : List Int) (cnt : Nat), cnt < max_retries →
      (∀ c ∈ codes, c ≠ 0) → max_retries - cnt ≤ codes.length →
      (ReservationPool.reserve_fire_loop max_retries cnt
          (codes.map fun c => (true, c))).result = GuiOutcome.maxRetriesReached
      ∧ (ReservationPool.reserve_fire_loop max_retries cnt
          (codes.map fun c => (true, c))).attempts = max_retries - cnt := by
  intro codes
  induction codes with
  | nil =>
      intro cnt h1 _ h3
      simp at h3
      omega
  | cons c cs ih =>
      intro cnt h1 h2 h3
      have hc : c ≠ 0 := h2 c (by simp)
      by_cases hm : max_retries ≤ cnt + 1
      · constructor
        · simp [ReservationPool.reserve_fire_loop, hc, hm]
        · simp [ReservationPool.reserve_fire_loop, hc, hm]
          omega
      · have hrest := ih (cnt + 1) (by omega)
          (fun x hx => h2 x (by simp [hx]))
          (by simp at h3 ⊢; omega)
        constructor
        · simp [ReservationPool.reserve_fire_loop, hc, hm, hrest.1]
        · simp [ReservationPool.reserve_fire_loop, hc, hm, hrest.2]
          omega

/-- C2 (amended): only the pool's firing loop
(`ReservationPool._reserve_activity`) enforces the retry ceiling: starting
from retry counter `cnt < max_retries`, it never issues more than
`max_retries - cnt` transport calls, and on any sequence of unsuccessful
responses — regardless of the individual codes — the decision once the
counter reaches `max_retries` is the fatal "达到最大重试次数" (max retries
reached) outcome, with no further transport attempts.  The CLI firing loop
(`ReservationBot._start_reservation_loop`) maintains no retry counter and
enforces no ceiling (see the counterexample). -/
theorem c2_pool_retry_ceiling (max_retries cnt : Nat) (codes : List Int)
    (h1 : cnt < max_retries) (h2 : ∀ c ∈ codes, c ≠ 0)
    (h3 : max_retries - cnt ≤ codes.length) :
    (ReservationPool.reserve_fire_loop max_retries cnt
        (codes.map fun c => (true, c))).result = GuiOutcome.maxRetriesReached
    ∧ (ReservationPool.reserve_fire_loop max_retries cnt
        (codes.map fun c => (true, c))).attempts = max_retries - cnt
    ∧ ∀ trace : List (Bool × Int),
        (ReservationPool.reserve_fire_loop max_retries cnt trace).attempts ≤
          max_retries - cnt :=
  ⟨(reserve_fire_loop_all_fail max_retries codes cnt h1 h2 h3).1,
   (reserve_fire_loop_all_fail max_retries codes cnt h1 h2 h3).2,
   fun trace => reserve_fire_loop_attempts_le max_retries trace cnt h1⟩

/-- Witness for C2: a pool task with ceiling 1, counter 0, fed a single
sold-out (75574) response, terminates with the max-retries outcome after
exactly one transport call. -/
theorem c2_witness :
    (ReservationPool.reserve_fire_loop 1 0
        ([75574].map fun c => (true, c))).result = GuiOutcome.maxRetriesReached
    ∧ (ReservationPool.reserve_fire_loop 1 0
        ([75574].map fun c => (true, c))).attempts = 1 := by
  have h := c2_pool_retry_ceiling 1 0 [75574] (by decide) (by decide) (by decide)
  exact ⟨h.1, h.2.1⟩

/-- C3 counterexample: the pool firing loop
(`ReservationPool._reserve_activity`) has no special handling for the
sold-out code 75574: fed a sold-out response and then a success (with the
default ceiling 1000 and counter 0), it issues a second transport call after
the sold-out code and even terminates with success, instead of ending
immediately with a fatal outcome. -/
theorem c3_counterexample :
    ReservationPool.reserve_fire_loop 1000 0 [(true, 75574), (true, 0)] =
      ⟨GuiOutcome.success, 2, 0⟩ := by
  decide

/-- C3 (amended): in the CLI firing loop
(`ReservationBot._start_reservation_loop`) the sold-out (75574) and
quota-exhausted (76674) codes are terminal: however many non-terminal
responses precede such a code, the loop ends at it with the corresponding
fatal result and issues no transport call beyond it (the result does not
depend on `rest`).  The pool's firing loop instead treats these codes as the
default retryable category (see the counterexample). -/
theorem c3_cli_sold_out_terminal (pre : List Int) (c : Int) (rest : List Int)
    (hpre : ∀ x ∈ pre, x ≠ 0 ∧ x ≠ 75574 ∧ x ≠ 76674)
    (hc : c = 75574 ∨ c = 76674) :
    start_reservation_loop (pre ++ c :: rest) =
      ((if c = 75574 then CliFireResult.soldOut else CliFireResult.quotaFull),
       pre.length + 1) := by
  induction pre with
  | nil =>
      rcases hc with h | h <;> subst h <;> simp [start_reservation_loop]
  | cons x xs ih =>
      have hx := hpre x (by simp)
      have htail := ih fun y hy => hpre y (by simp [hy])
      simp [start_reservation_loop, htail, hx.1, hx.2.1, hx.2.2]

/-- Witness for C3: one "not open" response, then sold out: the CLI loop
ends after exactly 2 transport calls with the sold-out result, whatever
follows. -/
theorem c3_witness :
    start_reservation_loop ([75637] ++ 75574 :: [0]) =
      (CliFireResult.soldOut, 2) := by
  simpa using c3_cli_sold_out_terminal [75637] 75574 [0] (by decide) (Or.inl rfl)

/-- C4 counterexample: `TimeUtils._sync_ntp_time` with a previously-held
offset of 5 s and a failing reference query does not leave the state
untouched: it disables NTP mode and zeroes the offset, so a subsequent
`get_current_time` at local time 200 returns 200 (raw local time) instead of
205 (the best prior estimate). -/
theorem c4_counterexample :
    TimeUtils.sync_ntp_time ⟨true, 5⟩ none 100 = ⟨false, 0⟩
    ∧ TimeUtils.sync_ntp_time ⟨true, 5⟩ none 100 ≠ ⟨true, 5⟩
    ∧ TimeUtils.get_current_time (TimeUtils.sync_ntp_time ⟨true, 5⟩ none 100) 200 = 200
    ∧ TimeUtils.get_current_time ⟨true, 5⟩ 200 = 205 := by
  refine ⟨rfl, by decide, rfl, ?_⟩
  norm_num [TimeUtils.get_current_time]

/-- C4 (amended): a failed reference query never raises (the embedding is a
total function mirroring the `try/except`), but `TimeUtils._sync_ntp_time`
does not keep the prior estimate: it disables correction and resets the
offset to 0, so every subsequent `get_current_time` returns raw local time
until a later successful sync.  The one-time automatic sync inside
`_wait_for_reservation_time`, by contrast, does leave the previously-held
offset and correction state untouched on failure. -/
theorem c4_sync_failure_resets (st : TimeState) (t now_local : ℚ) :
    TimeUtils.sync_ntp_time st none t = ⟨false, 0⟩
    ∧ TimeUtils.get_current_time (TimeUtils.sync_ntp_time st none t) now_local =
        now_local
    ∧ auto_ntp_sync st none t = st :=
  ⟨rfl, rfl, rfl⟩

/-- The monitor delivers exactly one terminal callback per future, in order:
projecting the callback list to its ids recovers the spawned id list. -/
lemma monitor_tasks_fst (results : Int → Except String GuiOutcome) :
    ∀ l : List Int,
      (ReservationPool.monitor_tasks (l.map fun i => (i, results i))).map
        Prod.fst = l := by
  intro l
  induction l with
  | nil => rfl
  | cons a as ih =>
      show (a :: (ReservationPool.monitor_tasks
          (as.map fun i => (i, results i))).map Prod.fst : List Int) = a :: as
      rw [ih]

/-- C5: across one run, the monitor thread of
`ReservationPool.start_concurrent_reservation` delivers the terminal outcome
to the status callback exactly once per spawned task: the ids of the
terminal callback invocations are exactly the spawned ids, which are
pairwise distinct — whatever terminal result (success, fatal, ceiling,
cancellation) or exception each worker produced.  (The extra
"等待预约开放中..." notices emitted for code 75637 inside the firing loop are
not terminal outcomes; they are counted separately in `FireOut.notices`.) -/
theorem c5_callback_exactly_once (st : PoolState)
    (results : Int → Except String GuiOutcome) :
    (ReservationPool.monitor_tasks
        (((ReservationPool.start_concurrent_reservation st).2).map
          fun i => (i, results i))).map Prod.fst =
      (ReservationPool.start_concurrent_reservation st).2
    ∧ ((ReservationPool.start_concurrent_reservation st).2).Nodup := by
  constructor
  · exact monitor_tasks_fst results _
  · unfold ReservationPool.start_concurrent_reservation
    split
    · simp
    · simp only []
      exact Finset.sort_nodup (α := Int) (· ≤ ·) st.selected

/-- The firing loop's outcome depends only on the trace up to and including
the first iteration whose flag reading is `false`. -/
lemma reserve_fire_loop_stop_cut (max_retries : Nat) :
    ∀ (trace : List (Bool × Int)) (cnt : Nat),
      ReservationPool.reserve_fire_loop max_retries cnt trace =
        ReservationPool.reserve_fire_loop max_retries cnt (fire_stop_cut trace) := by
  intro trace
  induction trace with
  | nil => intro _; rfl
  | cons step rest ih =>
      intro cnt
      obtain ⟨running, code⟩ := step
      by_cases hr : running
      · by_cases hc : code = 0
        · simp [fire_stop_cut, ReservationPool.reserve_fire_loop, hr, hc]
        · by_cases hm : max_retries ≤ cnt + 1
          · simp [fire_stop_cut, ReservationPool.reserve_fire_loop, hr, hc, hm]
          · simp [fire_stop_cut, ReservationPool.reserve_fire_loop, hr, hc, hm,
              ih (cnt + 1)]
      · simp [fire_stop_cut, ReservationPool.reserve_fire_loop, hr]

/-- The wait loop's outcome depends only on the trace up to and including
the first iteration that ends it. -/
lemma reserve_wait_loop_stop_cut (reserve_time : Int) :
    ∀ trace : List ReservationPool.GuiWaitInput,
      ReservationPool.reserve_wait_loop reserve_time trace =
        ReservationPool.reserve_wait_loop reserve_time
          (wait_stop_cut reserve_time trace) := by
  intro trace
  induction trace with
  | nil => rfl
  | cons inp rest ih =>
      by_cases hcl : inp.clock ≤ reserve_time
      · by_cases hrn : inp.running
        · simp [wait_stop_cut, ReservationPool.reserve_wait_loop, hcl, hrn, ih]
        · simp [wait_stop_cut, ReservationPool.reserve_wait_loop, hcl, hrn]
      · simp [wait_stop_cut, ReservationPool.reserve_wait_loop, hcl]

/-- C6: stopping is cooperative and effective at every flag check point.
An iteration of the firing loop that reads `is_running == false` terminates
the worker at once with the cancellation ("预约被停止") outcome, zero further
transport calls and zero further notices; nothing a worker does depends on
trace entries past the first cleared-flag reading (so no transport call is
issued after observing `running == false`).  The wait loop likewise turns a
cleared flag into the "预约被取消" outcome at its next quantum.
`stop_reservation` itself only clears the flag — it does not touch the
selected set, the retry counters or the running workers, so a worker inside
a sleep is not forcibly interrupted and reacts only at its next check
point. -/
theorem c6_stop_cooperative :
    (∀ (max_retries cnt : Nat) (code : Int) (rest : List (Bool × Int)),
        ReservationPool.reserve_fire_loop max_retries cnt ((false, code) :: rest) =
          ⟨GuiOutcome.stopped, 0, 0⟩)
    ∧ (∀ (max_retries cnt : Nat) (trace : List (Bool × Int)),
        ReservationPool.reserve_fire_loop max_retries cnt trace =
          ReservationPool.reserve_fire_loop max_retries cnt (fire_stop_cut trace))
    ∧ (∀ (reserve_time clock : Int) (rest : List ReservationPool.GuiWaitInput),
        ReservationPool.reserve_wait_loop reserve_time (⟨clock, false⟩ :: rest) =
          if clock ≤ reserve_time then .cancelled else .proceed clock)
    ∧ (∀ (reserve_time : Int) (trace : List ReservationPool.GuiWaitInput),
        ReservationPool.reserve_wait_loop reserve_time trace =
          ReservationPool.reserve_wait_loop reserve_time
            (wait_stop_cut reserve_time trace))
    ∧ (∀ st : PoolState,
        (ReservationPool.stop_reservation st).is_running = false
        ∧ (ReservationPool.stop_reservation st).selected = st.selected
        ∧ (ReservationPool.stop_reservation st).retry_counts = st.retry_counts
        ∧ (ReservationPool.stop_reservation st).active_workers =
            st.active_workers) := by
  refine ⟨?_, ?_, ?_, ?_, ?_⟩
  · intro max_retries cnt code rest
    simp [ReservationPool.reserve_fire_loop]
  · intro max_retries cnt trace
    exact reserve_fire_loop_stop_cut max_retries trace cnt
  · intro reserve_time clock rest
    by_cases h : clock ≤ reserve_time <;>
      simp [ReservationPool.reserve_wait_loop, h]
  · intro reserve_time trace
    exact reserve_wait_loop_stop_cut reserve_time trace
  · exact fun st => ⟨rfl, rfl, rfl, rfl⟩

/-- C7: at the one-time automatic sync inside the wait loop, with persistent
correction off, correction is auto-enabled with the measured offset exactly
when the discrepancy between the reference and the local clock exceeds
0.7 s — after which `get_current_time` returns local time plus that offset —
and otherwise the state is untouched and `get_current_time` keeps returning
raw local time.  In particular a 0.9 s discrepancy enables correction and a
0.3 s discrepancy does not. -/
theorem c7_auto_sync_threshold (off ntp local_before now_local : ℚ) :
    auto_ntp_sync ⟨false, off⟩ (some ntp) local_before =
      (if 7/10 < |ntp - local_before| then ⟨true, ntp - local_before⟩
       else ⟨false, off⟩)
    ∧ TimeUtils.get_current_time
        (auto_ntp_sync ⟨false, off⟩ (some ntp) local_before) now_local =
      (if 7/10 < |ntp - local_before| then now_local + (ntp - local_before)
       else now_local)
    ∧ auto_ntp_sync ⟨false, off⟩ (some (local_before + 9/10)) local_before =
        ⟨true, 9/10⟩
    ∧ auto_ntp_sync ⟨false, off⟩ (some (local_before + 3/10)) local_before =
        ⟨false, off⟩ := by
  have h9 : local_before + 9/10 - local_before = (9/10 : ℚ) := by ring
  have h3 : local_before + 3/10 - local_before = (3/10 : ℚ) := by ring
  refine ⟨?_, ?_, ?_, ?_⟩
  · by_cases h : 7/10 < |ntp - local_before| <;> simp [auto_ntp_sync, h]
  · by_cases h : 7/10 < |ntp - local_before| <;>
      simp [auto_ntp_sync, TimeUtils.get_current_time, h]
  · rw [auto_ntp_sync, h9]
    norm_num [abs_of_nonneg]
  · rw [auto_ntp_sync, h3]
    norm_num [abs_of_nonneg]

/-- C8: the set of tasks the workers execute is the snapshot taken when the
pool run started: `add_activity` and `remove_activity`, even when invoked
while the pool is running, change neither the worker list nor the running
flag, and `start_concurrent_reservation` is the only operation that writes
the worker list (from the selected set at start time). -/
theorem c8_workers_snapshot
    (activity_mapping : Int → Option (String × Int × Int))
    (st : PoolState) (activity_id : Int) :
    ((ReservationPool.add_activity activity_mapping st activity_id).2).active_workers =
      st.active_workers
    ∧ ((ReservationPool.add_activity activity_mapping st activity_id).2).is_running =
        st.is_running
    ∧ (ReservationPool.remove_activity st activity_id).active_workers =
        st.active_workers
    ∧ (ReservationPool.remove_activity st activity_id).is_running = st.is_running
    ∧ ∀ st' : PoolState,
        ((ReservationPool.start_concurrent_reservation st').1).active_workers =
          if st'.is_running ∨ st'.selected = ∅ then st'.active_workers
          else st'.selected.sort (· ≤ ·) := by
  refine ⟨?_, ?_, rfl, rfl, ?_⟩
  · unfold ReservationPool.add_activity
    split <;> rfl
  · unfold ReservationPool.add_activity
    split <;> rfl
  · intro st'
    unfold ReservationPool.start_concurrent_reservation
    split
    · next h => simp [h]
    · next h => simp [h]

/-- C9: calling `start_concurrent_reservation` when the pool is already
running, or when the selected set is empty, is a complete no-op: the state
is returned unchanged and no workers are spawned (so the monitor invokes the
status callback for zero tasks). -/
theorem c9_start_noop (st : PoolState)
    (h : st.is_running = true ∨ st.selected = ∅) :
    ReservationPool.start_concurrent_reservation st = (st, []) := by
  unfold ReservationPool.start_concurrent_reservation
  rcases h with h | h <;> simp [h]

/-- Witness for C9: a concrete pool that is already running is left
untouched by `start_concurrent_reservation`. -/
theorem c9_witness :
    ReservationPool.start_concurrent_reservation sample_running_pool =
      (sample_running_pool, []) :=
  c9_start_noop sample_running_pool (Or.inl rfl)

/-- A key is present after the inner fold iff it was present before or some
activity of the list carries it. -/
lemma record_activity_fold_isSome (id : Int) :
    ∀ (acts : List Activity) (m : Int → Option (String × Int × Int)),
      ((acts.foldl record_activity m) id).isSome = true ↔
        (m id).isSome = true ∨ ∃ act ∈ acts, act.reserve_id = id := by
  intro acts
  induction acts with
  | nil => intro m; simp
  | cons a as ih =>
      intro m
      rw [List.foldl_cons, ih]
      have hrec : (record_activity m a id).isSome = true ↔
          id = a.reserve_id ∨ (m id).isSome = true := by
        by_cases h : id = a.reserve_id <;>
          simp [record_activity, Function.update_apply, h]
      rw [hrec]
      constructor
      · rintro ((h | hm) | ⟨act, hact, hid⟩)
        · exact Or.inr ⟨a, by simp, h.symm⟩
        · exact Or.inl hm
        · exact Or.inr ⟨act, by simp [hact], hid⟩
      · rintro (hm | ⟨act, hact, hid⟩)
        · exact Or.inl (Or.inr hm)
        · rcases List.mem_cons.mp hact with rfl | hmem
          · exact Or.inl (Or.inl hid.symm)
          · exact Or.inr ⟨act, hmem, hid⟩

/-- A key is in the built activity mapping iff some day's reserve list
carries an activity with that id. -/
lemma build_activity_mapping_isSome (info : ReservationInfo) (id : Int) :
    (build_activity_mapping info id).isSome = true ↔
      ∃ day ∈ info.ticket_days, ∃ act ∈ info.reserve_list day,
        act.reserve_id = id := by
  have main : ∀ (days : List String) (m : Int → Option (String × Int × Int)),
      ((days.foldl (record_day info.reserve_list) m) id).isSome = true ↔
        (m id).isSome = true ∨ ∃ day ∈ days, ∃ act ∈ info.reserve_list day,
          act.reserve_id = id := by
    intro days
    induction days with
    | nil => intro m; simp
    | cons d ds ih =>
        intro m
        rw [List.foldl_cons, ih, record_day, record_activity_fold_isSome]
        simp only [List.mem_cons]
        constructor
        · rintro (⟨hm | hact⟩ | hds)
          · exact Or.inl hm
          · exact Or.inr ⟨d, Or.inl rfl, hact⟩
          · obtain ⟨day, hday, hwit⟩ := hds
            exact Or.inr ⟨day, Or.inr hday, hwit⟩
        · rintro (hm | ⟨day, hday | hday, hwit⟩)
          · exact Or.inl (Or.inl hm)
          · subst hday
            exact Or.inl (Or.inr hwit)
          · exact Or.inr ⟨day, hday, hwit⟩
  rw [build_activity_mapping, main]
  simp

/-- C10: `add_activity` succeeds (returns `True`), inserts the id into the
selected set and resets its retry counter to 0, exactly when the id is a
known activity of the built activity mapping — that is, when some day's
reserve list carries an activity with that id; for an unknown id it returns
`False` and leaves the whole pool state unchanged.  Re-adding an id that is
already in the pool leaves the selected set unchanged (set insertion) while
still resetting its counter, and counters of other ids are untouched. -/
theorem c10_add_activity (info : ReservationInfo) (st : PoolState) (id : Int) :
    ((ReservationPool.add_activity (build_activity_mapping info) st id).1 = true ↔
      ∃ day ∈ info.ticket_days, ∃ act ∈ info.reserve_list day,
        act.reserve_id = id)
    ∧ ((ReservationPool.add_activity (build_activity_mapping info) st id).1 = true →
        ((ReservationPool.add_activity (build_activity_mapping info) st id).2).selected =
          insert id st.selected
        ∧ ((ReservationPool.add_activity (build_activity_mapping info)
              st id).2).retry_counts id = some 0
        ∧ ∀ j, j ≠ id →
            ((ReservationPool.add_activity (build_activity_mapping info)
                st id).2).retry_counts j = st.retry_counts j)
    ∧ ((ReservationPool.add_activity (build_activity_mapping info) st id).1 = false →
        (ReservationPool.add_activity (build_activity_mapping info) st id).2 = st)
    ∧ (id ∈ st.selected →
        ((ReservationPool.add_activity (build_activity_mapping info)
            st id).2).selected = st.selected) := by
  by_cases h : (build_activity_mapping info id).isSome = true
  · refine ⟨?_, ?_, ?_, ?_⟩
    · rw [← build_activity_mapping_isSome]
      simp [ReservationPool.add_activity, h]
    · intro _
      refine ⟨?_, ?_, ?_⟩
      · simp [ReservationPool.add_activity, h]
      · simp [ReservationPool.add_activity, h]
      · intro j hj
        simp [ReservationPool.add_activity, h, Function.update_apply, hj]
    · intro hfalse
      exfalso
      simp [ReservationPool.add_activity, h] at hfalse
    · intro hmem
      simp [ReservationPool.add_activity, h, Finset.insert_eq_self.mpr hmem]
  · refine ⟨?_, ?_, ?_, ?_⟩
    · rw [← build_activity_mapping_isSome]
      simp [ReservationPool.add_activity, h]
    · intro htrue
      exfalso
      simp [ReservationPool.add_activity, h] at htrue
    · intro _
      simp [ReservationPool.add_activity, h]
    · intro _
      simp [ReservationPool.add_activity, h]

/-- Witness for C10: adding the known activity 5 of `sample_info` to the
empty pool succeeds and resets its retry counter to 0. -/
theorem c10_witness :
    (ReservationPool.add_activity (build_activity_mapping sample_info)
        sample_pool 5).1 = true
    ∧ ((ReservationPool.add_activity (build_activity_mapping sample_info)
        sample_pool 5).2).retry_counts 5 = some 0 := by
  have h := c10_add_activity sample_info sample_pool 5
  have h1 : (ReservationPool.add_activity (build_activity_mapping sample_info)
      sample_pool 5).1 = true :=
    h.1.mpr ⟨"20250711", by simp [sample_info],
      ⟨5, "act", 1752000000, 1751000000⟩, by simp [sample_info], rfl⟩
  exact ⟨h1, (h.2.1 h1).2.1⟩

end BwsTicket
